import Mathlib

/-!
# Formal model of the maddata2026 analysis pipeline

A shallow embedding, in Lean 4, of the analysis-pipeline core of the
repository:

* `backend/routers/analysis.py` — the orchestrator `run_analysis_pipeline`,
  the upsert helper `save_analysis`, and `merge_financial_data`;
* `backend/services/financial_analyzer.py` — `analyze_qoe`,
  `calculate_ratios`, `calculate_dcf`;
* `backend/services/ml_engine.py` — `AnomalyDetector.detect`;
* `backend/utils.py` — `safe_div`.

Modelling conventions:

* Python numbers (ints and floats) are modelled as exact rationals `ℚ`.
  The numeric literals of the source (`0.25`, `0.1`, ...) are read as the
  decimal fractions they denote.
* Python dicts that carry heterogeneous JSON-like data (the per-document
  financial data handled by `merge_financial_data`) are modelled by the
  inductive type `JVal` of JSON-like values; a dict is an association list
  in insertion order, and `dict.get` / truthiness are modelled exactly.
* Python dicts that the calculation engines read only through
  `d.get(key, 0)` with numeric defaults are modelled as association lists
  `List (String × ℚ)` with a total default-0 lookup `dget`.
* `round(x, n)` is modelled by `pyRound` (round half to even, as Python).
* `int(x)` truncation toward zero is modelled by `ratTrunc`.
* Code that can raise is modelled with `Except String`; the error string
  names the Python exception.
-/

/-- A JSON-like Python value, as produced by document extraction and
consumed by `merge_financial_data`.  An `obj` is a Python dict given as its
association list in insertion order. -/
inductive JVal where
  | null : JVal
  | str (s : String) : JVal
  | num (q : ℚ) : JVal
  | arr (xs : List JVal) : JVal
  | obj (kvs : List (String × JVal)) : JVal

/-- Python truthiness of a `JVal` (`bool(v)`): `None`, `""`, `0`, `[]`, `{}`
are falsy, everything else truthy. -/
def JVal.truthy : JVal → Bool
  | .null => false
  | .str s => !(s == "")
  | .num q => !(q == 0)
  | .arr xs => !xs.isEmpty
  | .obj kvs => !kvs.isEmpty

/-- `v is None`. -/
def JVal.isNull : JVal → Bool
  | .null => true
  | _ => false

/-- `v == ""` (Python equality against the empty string: only the empty
string compares equal to it). -/
def JVal.isEmptyStr : JVal → Bool
  | .str s => s == ""
  | _ => false

/-- The entries of a value expected to be a dict (`.items()`); non-dicts
contribute no entries. -/
def JVal.asObj : JVal → List (String × JVal)
  | .obj kvs => kvs
  | _ => []

/-- The elements of a value expected to be a list; non-lists contribute no
elements. -/
def JVal.asArr : JVal → List JVal
  | .arr xs => xs
  | _ => []

/-- First-match association-list lookup: Python `d[k]` / `k in d`. -/
def jget : List (String × JVal) → String → Option JVal
  | [], _ => none
  | kv :: rest, k => if kv.1 == k then some kv.2 else jget rest k

/-- Python `d.get(k)`: `None` when the key is absent. -/
def pyGet (d : List (String × JVal)) (k : String) : JVal :=
  (jget d k).getD JVal.null

/-- Python `d.get(k, dflt)`. -/
def pyGetD (d : List (String × JVal)) (k : String) (dflt : JVal) : JVal :=
  (jget d k).getD dflt

/-- Python truthiness of a `d.get(k)` result (`None` when absent). -/
def optTruthy (o : Option JVal) : Bool :=
  match o with
  | none => false
  | some v => v.truthy

/-- Python dict assignment `d[k] = v`: replace in place if the key is
present, else append (insertion order preserved). -/
def dictSet : List (String × JVal) → String → JVal → List (String × JVal)
  | [], k, v => [(k, v)]
  | kv :: rest, k, v => if kv.1 == k then (k, v) :: rest else kv :: dictSet rest k v

/-- `data.get(section, {})`, read as a dict. -/
def secItems (data : List (String × JVal)) (sec : String) : List (String × JVal) :=
  (pyGetD data sec (JVal.obj [])).asObj

/-- `data.get(key, [])`, read as a list. -/
def arrItems (data : List (String × JVal)) (key : String) : List JVal :=
  (pyGetD data key (JVal.arr [])).asArr

/-!
## Merge Engine — `merge_financial_data` (analysis.py lines 274–311)
-/

/-- The `merged` accumulator dict of `merge_financial_data`: it always has
exactly these eight keys, so it is represented as a structure. -/
structure MergedData where
  company_name : JVal
  period : JVal
  currency : JVal
  income_statement : List (String × JVal)
  balance_sheet : List (String × JVal)
  cash_flow : List (String × JVal)
  adjustments : List JVal
  notes : List JVal

/-- The initial `merged` dict (analysis.py lines 286–295). -/
def initMerged : MergedData :=
  { company_name := .str "", period := .str "", currency := .str "USD",
    income_statement := [], balance_sheet := [], cash_flow := [],
    adjustments := [], notes := [] }

/-- The inner per-section loop (analysis.py lines 303–306): for each
`key, value` of the document section, in order, if `value is not None and
value != "" and not merged[section].get(key)` then `merged[section][key] =
value`. -/
def mergeSection (sec : List (String × JVal)) (items : List (String × JVal)) :
    List (String × JVal) :=
  items.foldl
    (fun acc kv =>
      if !kv.2.isNull && !kv.2.isEmptyStr && !optTruthy (jget acc kv.1) then
        dictSet acc kv.1 kv.2
      else acc)
    sec

/-- One iteration of the outer `for data in data_list` loop
(analysis.py lines 297–309). -/
def mergeDoc (m : MergedData) (data : List (String × JVal)) : MergedData :=
  let m :=
    if !m.company_name.truthy && (pyGet data "company_name").truthy then
      { m with company_name := pyGet data "company_name" }
    else m
  let m :=
    if !m.period.truthy && (pyGet data "period").truthy then
      { m with period := pyGet data "period" }
    else m
  let m := { m with income_statement := mergeSection m.income_statement (secItems data "income_statement") }
  let m := { m with balance_sheet := mergeSection m.balance_sheet (secItems data "balance_sheet") }
  let m := { m with cash_flow := mergeSection m.cash_flow (secItems data "cash_flow") }
  { m with adjustments := m.adjustments ++ arrItems data "adjustments",
           notes := m.notes ++ arrItems data "notes" }

/-- The merged accumulator rendered back as the Python dict that the
function returns. -/
def MergedData.toObj (m : MergedData) : JVal :=
  .obj [("company_name", m.company_name), ("period", m.period),
        ("currency", m.currency),
        ("income_statement", .obj m.income_statement),
        ("balance_sheet", .obj m.balance_sheet),
        ("cash_flow", .obj m.cash_flow),
        ("adjustments", .arr m.adjustments),
        ("notes", .arr m.notes)]

/-- `merge_financial_data(data_list)` (analysis.py lines 274–311).
Each document is a dict.  `if not data_list: return {}`;
`if len(data_list) == 1: return data_list[0]`; otherwise fold the
per-document merge over the template dict. -/
def merge_financial_data (data_list : List (List (String × JVal))) : JVal :=
  match data_list with
  | [] => .obj []
  | [d] => .obj d
  | ds => (ds.foldl mergeDoc initMerged).toObj

/-!
## Spec-side characterization of the per-field merge rule (claim C4)

The spec states: for each field of `income_statement`, `balance_sheet`,
`cash_flow` independently, scanning documents in order, a candidate value
is taken when it is non-null, not the empty string, and the
currently-merged value is still falsy — first non-zero value wins.
-/

/-- One spec-side step: a candidate value replaces the current merged value
exactly when it is non-null, not the empty string, and the current value is
still falsy (zero/empty/unset). -/
def fwStep (cur : Option JVal) (v : JVal) : Option JVal :=
  if !v.isNull && !v.isEmptyStr && !optTruthy cur then some v else cur

/-- Spec-side merged value of one field, given the candidate values for that
field in document order. -/
def specFirstWins (vs : List JVal) : Option JVal :=
  vs.foldl fwStep none

/-- The three merged statement sections. -/
inductive SectionName where
  | income_statement | balance_sheet | cash_flow

/-- The dict key of a section. -/
def SectionName.key : SectionName → String
  | .income_statement => "income_statement"
  | .balance_sheet => "balance_sheet"
  | .cash_flow => "cash_flow"

/-- Selecting a section of the merge accumulator. -/
def MergedData.sectionMap (m : MergedData) : SectionName → List (String × JVal)
  | .income_statement => m.income_statement
  | .balance_sheet => m.balance_sheet
  | .cash_flow => m.cash_flow

/-- The candidate values a single document offers for field `k` of section
`sec`, in the order the document lists them. -/
def sectionValuesAt (data : List (String × JVal)) (sec : SectionName) (k : String) :
    List JVal :=
  (secItems data sec.key).filterMap (fun kv => if kv.1 == k then some kv.2 else none)

/-- All candidate values for field `k` of section `sec`, scanning the
documents in their given order. -/
def valuesAcross : List (List (String × JVal)) → SectionName → String → List JVal
  | [], _, _ => []
  | d :: ds, sec, k => sectionValuesAt d sec k ++ valuesAcross ds sec k

theorem jget_dictSet (d : List (String × JVal)) (k k' : String) (v : JVal) :
    jget (dictSet d k v) k' = if k' == k then some v else jget d k' := by
  induction d with
  | nil =>
    by_cases h : k' = k
    · simp [dictSet, jget, h]
    · simp [dictSet, jget, beq_iff_eq, h, Ne.symm h]
  | cons kv rest ih =>
    by_cases h : kv.1 = k
    · by_cases h' : k' = k
      · simp [dictSet, jget, beq_iff_eq, h, h']
      · have h1 : ¬k = k' := fun hh => h' hh.symm
        have h2 : ¬kv.1 = k' := h ▸ h1
        simp [dictSet, jget, beq_iff_eq, h, h', h1, h2]
    · by_cases h' : k' = kv.1
      · subst h'
        simp [dictSet, jget, beq_iff_eq, h]
      · simp [dictSet, jget, beq_iff_eq, h, Ne.symm h', ih]

theorem mergeSection_cons (sec : List (String × JVal)) (kv : String × JVal)
    (rest : List (String × JVal)) :
    mergeSection sec (kv :: rest) =
      mergeSection
        (if !kv.2.isNull && !kv.2.isEmptyStr && !optTruthy (jget sec kv.1) then
          dictSet sec kv.1 kv.2
        else sec)
        rest := rfl

theorem jget_mergeStep (sec : List (String × JVal)) (kv : String × JVal) (k : String) :
    jget
      (if !kv.2.isNull && !kv.2.isEmptyStr && !optTruthy (jget sec kv.1) then
        dictSet sec kv.1 kv.2
      else sec) k =
      (if kv.1 == k then fwStep (jget sec k) kv.2 else jget sec k) := by
  by_cases hk : kv.1 = k
  · subst hk
    by_cases hc : (!kv.2.isNull && !kv.2.isEmptyStr && !optTruthy (jget sec kv.1)) = true
    · rw [if_pos hc, jget_dictSet]
      simp [fwStep, hc]
    · rw [if_neg hc]
      simp only [Bool.not_eq_true] at hc
      simp [fwStep, hc]
  · have hbk : (kv.1 == k) = false := by simp [beq_iff_eq, hk]
    by_cases hc : (!kv.2.isNull && !kv.2.isEmptyStr && !optTruthy (jget sec kv.1)) = true
    · rw [if_pos hc, jget_dictSet]
      simp [hbk, beq_iff_eq, hk, Ne.symm hk]
    · rw [if_neg hc]
      simp [hbk]

theorem mergeSection_jget (items : List (String × JVal)) (sec : List (String × JVal))
    (k : String) :
    jget (mergeSection sec items) k =
      (items.filterMap (fun kv => if kv.1 == k then some kv.2 else none)).foldl
        fwStep (jget sec k) := by
  induction items generalizing sec with
  | nil => rfl
  | cons kv rest ih =>
    rw [mergeSection_cons, ih, jget_mergeStep]
    by_cases hk : kv.1 = k
    · simp [List.filterMap_cons, hk]
    · simp [List.filterMap_cons, hk]

theorem mergeDoc_income (m : MergedData) (data : List (String × JVal)) :
    (mergeDoc m data).income_statement =
      mergeSection m.income_statement (secItems data "income_statement") := by
  simp only [mergeDoc]
  split <;> split <;> rfl

theorem mergeDoc_balance (m : MergedData) (data : List (String × JVal)) :
    (mergeDoc m data).balance_sheet =
      mergeSection m.balance_sheet (secItems data "balance_sheet") := by
  simp only [mergeDoc]
  split <;> split <;> rfl

theorem mergeDoc_cash (m : MergedData) (data : List (String × JVal)) :
    (mergeDoc m data).cash_flow =
      mergeSection m.cash_flow (secItems data "cash_flow") := by
  simp only [mergeDoc]
  split <;> split <;> rfl

theorem mergeDoc_sectionMap (m : MergedData) (data : List (String × JVal))
    (sec : SectionName) :
    (mergeDoc m data).sectionMap sec =
      mergeSection (m.sectionMap sec) (secItems data sec.key) := by
  cases sec
  · exact mergeDoc_income m data
  · exact mergeDoc_balance m data
  · exact mergeDoc_cash m data

theorem foldl_mergeDoc_jget (docs : List (List (String × JVal))) (m : MergedData)
    (sec : SectionName) (k : String) :
    jget ((docs.foldl mergeDoc m).sectionMap sec) k =
      (valuesAcross docs sec k).foldl fwStep (jget (m.sectionMap sec) k) := by
  induction docs generalizing m with
  | nil => rfl
  | cons d ds ih =>
    rw [List.foldl_cons, ih (mergeDoc m d), mergeDoc_sectionMap m d sec,
      mergeSection_jget, valuesAcross, List.foldl_append]
    rfl

theorem pyGet_toObj_section (m : MergedData) (sec : SectionName) :
    pyGet (MergedData.toObj m).asObj sec.key = .obj (m.sectionMap sec) := by
  cases sec <;> rfl

theorem jget_initMerged_section (sec : SectionName) (k : String) :
    jget (initMerged.sectionMap sec) k = none := by
  cases sec <;> rfl

/-- **C4.** For every ordered sequence of two or more documents and every
field key of any of the three statement sections, the value of that field in
the merged record equals the spec-side first-non-zero-wins fold over the
candidate values for that field, scanning documents in their given order: a
candidate is taken exactly when it is non-null, not the empty string, and
the currently-merged value is still falsy (zero or unset). -/
theorem merge_field_first_nonzero_wins (docs : List (List (String × JVal)))
    (h2 : 2 ≤ docs.length) (sec : SectionName) (k : String) :
    jget ((pyGet (merge_financial_data docs).asObj sec.key).asObj) k =
      specFirstWins (valuesAcross docs sec k) := by
  match docs with
  | [] => simp at h2
  | [a] => simp at h2
  | a :: b :: rest =>
    rw [show merge_financial_data (a :: b :: rest) =
          ((a :: b :: rest).foldl mergeDoc initMerged).toObj from rfl,
        pyGet_toObj_section]
    show jget (((a :: b :: rest).foldl mergeDoc initMerged).sectionMap sec) k = _
    rw [foldl_mergeDoc_jget, jget_initMerged_section]
    rfl

/-- Documents for the two spec examples: `merge([{revenue:0},{revenue:100}])`
and `merge([{revenue:50},{revenue:100}])`. -/
def mergeDocsA : List (List (String × JVal)) :=
  [[("income_statement", JVal.obj [("revenue", JVal.num 0)])],
   [("income_statement", JVal.obj [("revenue", JVal.num 100)])]]

def mergeDocsB : List (List (String × JVal)) :=
  [[("income_statement", JVal.obj [("revenue", JVal.num 50)])],
   [("income_statement", JVal.obj [("revenue", JVal.num 100)])]]

/-- Witness for C4 at the spec's two concrete examples: a zero first value
is overwritten by a later non-zero one, while a non-zero first value wins
over a later conflicting one. -/
theorem merge_field_first_nonzero_wins_witness :
    jget ((pyGet (merge_financial_data mergeDocsA).asObj "income_statement").asObj)
        "revenue" = some (JVal.num 100) ∧
    jget ((pyGet (merge_financial_data mergeDocsB).asObj "income_statement").asObj)
        "revenue" = some (JVal.num 50) := by
  constructor
  · show jget ((pyGet (merge_financial_data mergeDocsA).asObj
        SectionName.income_statement.key).asObj) "revenue" = _
    rw [merge_field_first_nonzero_wins mergeDocsA (by decide)
      SectionName.income_statement "revenue"]
    norm_num [specFirstWins, valuesAcross, sectionValuesAt, secItems, pyGetD, jget,
      JVal.asObj, fwStep, optTruthy, JVal.truthy, JVal.isNull, JVal.isEmptyStr,
      mergeDocsA, SectionName.key, List.filterMap_cons, List.filterMap_nil,
      List.foldl_cons, List.foldl_nil]
  · show jget ((pyGet (merge_financial_data mergeDocsB).asObj
        SectionName.income_statement.key).asObj) "revenue" = _
    rw [merge_field_first_nonzero_wins mergeDocsB (by decide)
      SectionName.income_statement "revenue"]
    norm_num [specFirstWins, valuesAcross, sectionValuesAt, secItems, pyGetD, jget,
      JVal.asObj, fwStep, optTruthy, JVal.truthy, JVal.isNull, JVal.isEmptyStr,
      mergeDocsB, SectionName.key, List.filterMap_cons, List.filterMap_nil,
      List.foldl_cons, List.foldl_nil]

/-!
## Pipeline Orchestrator — `run_analysis_pipeline` (analysis.py lines 78–249)

The orchestrator is modelled from the merge result onward (STEP 4's guard
at lines 139–143 and STEPs 6–8 at lines 155–196, plus the outer
`except Exception` handler at lines 242–247 that sets the deal status to
"failed").  The calculation engines and the optional teammate services are
abstracted as outcome parameters: each stage either returns a result value
or raises (`Except.error`), exactly as observed by the orchestrator.  The
report-generation STEP 9 catches all of its own exceptions (lines 236–240)
and never changes the deal status, so it does not appear in the model.
-/

/-- One persisted `Analysis` row, as written by `save_analysis`
(analysis.py lines 252–271): `results` is `None` when the stage result was
falsy (`json.dumps(results) if results else None`). -/
structure SavedRecord where
  analysis_type : String
  status : String
  results : Option JVal

/-- `save_analysis(db, deal_id, analysis_type, results)` (analysis.py lines
252–271): upsert by `analysis_type`; both branches set
`status = "completed"`. -/
def save_analysis (recs : List SavedRecord) (ty : String) (res : JVal) :
    List SavedRecord :=
  let row : SavedRecord :=
    { analysis_type := ty, status := "completed",
      results := if res.truthy then some res else none }
  if recs.any (fun x => x.analysis_type == ty) then
    recs.map (fun x => if x.analysis_type == ty then row else x)
  else
    recs ++ [row]

/-- The stage outcomes the orchestrator observes in one run: each
calculation engine either returns a value or raises; `ml_engine` import may
fail (`anomalies_available = false`, lines 172–178); AI-insight generation
(lines 180–196) either yields a value or is replaced by `None` after its
own internal timeout/exception/import handling. -/
structure PipelineEnv where
  qoe : Except String JVal
  working_capital : Except String JVal
  ratios : Except String JVal
  dcf : Except String JVal
  red_flags : Except String JVal
  anomalies_available : Bool
  anomalies : Except String JVal
  insights : Except String JVal

/-- Deal status together with the persisted per-stage records after a run
(records are committed per stage, so records saved before a failure
persist). -/
structure PipelineRun where
  deal_status : String
  records : List SavedRecord

/-- `if not merged.get("income_statement")` (analysis.py line 139). -/
def pipelineHasData (merged : JVal) : Bool :=
  (pyGet merged.asObj "income_statement").truthy

/-- The post-merge portion of `run_analysis_pipeline` (analysis.py lines
139–196 and 198–201, with the outer handler of lines 242–244): the
no-usable-data guard, then the five calculation stages run strictly in
sequence with NO per-stage exception handling — an engine exception
propagates to the outer handler, which marks the deal "failed" and returns;
the anomalies stage catches only `ImportError`; the insights stage catches
everything and saves `None`; finally the deal is marked "completed". -/
def run_analysis_pipeline_core (merged : JVal) (env : PipelineEnv) : PipelineRun :=
  if !pipelineHasData merged then { deal_status := "failed", records := [] }
  else
    match env.qoe with
    | .error _ => { deal_status := "failed", records := [] }
    | .ok qoe =>
      let recs := save_analysis [] "qoe" qoe
      match env.working_capital with
      | .error _ => { deal_status := "failed", records := recs }
      | .ok wc =>
        let recs := save_analysis recs "working_capital" wc
        match env.ratios with
        | .error _ => { deal_status := "failed", records := recs }
        | .ok ratios =>
          let recs := save_analysis recs "ratios" ratios
          match env.dcf with
          | .error _ => { deal_status := "failed", records := recs }
          | .ok dcf =>
            let recs := save_analysis recs "dcf" dcf
            match env.red_flags with
            | .error _ => { deal_status := "failed", records := recs }
            | .ok rf =>
              let recs := save_analysis recs "red_flags" rf
              match (if env.anomalies_available then env.anomalies
                     else .ok (JVal.arr [])) with
              | .error _ => { deal_status := "failed", records := recs }
              | .ok an =>
                let recs := save_analysis recs "anomalies" an
                let ins := match env.insights with
                  | .ok v => v
                  | .error _ => JVal.null
                let recs := save_analysis recs "ai_insights" ins
                { deal_status := "completed", records := recs }

/-!
## Claims C7, C3, C1, C10 — merge-empty shape, halt guard, stage failure,
per-stage statuses
-/

/-- **C7 counterexample.** `merge_financial_data([])` returns the bare
empty dict `{}` (analysis.py lines 281–282): the `income_statement` key is
NOT present — not even as an empty map — refuting the claim that the three
sections and the two lists are present as default values. -/
theorem merge_empty_has_no_section_keys :
    merge_financial_data [] = JVal.obj [] ∧
    jget (merge_financial_data []).asObj "income_statement" = none ∧
    jget (merge_financial_data []).asObj "adjustments" = none :=
  ⟨rfl, rfl, rfl⟩

/-- **C7 amended.** Merging an empty input sequence yields the empty dict
`{}` with no keys at all; every section or list key reads as absent
(`None`) through `dict.get`, which downstream falsiness checks treat the
same as empty. -/
theorem merge_empty_yields_bare_empty_dict :
    merge_financial_data [] = JVal.obj [] ∧
    pyGet (merge_financial_data []).asObj "income_statement" = JVal.null ∧
    pyGet (merge_financial_data []).asObj "balance_sheet" = JVal.null ∧
    pyGet (merge_financial_data []).asObj "cash_flow" = JVal.null ∧
    pyGet (merge_financial_data []).asObj "adjustments" = JVal.null ∧
    pyGet (merge_financial_data []).asObj "notes" = JVal.null :=
  ⟨rfl, rfl, rfl, rfl, rfl, rfl⟩

/-- A single document whose income statement is non-empty but all-zero. -/
def allZeroDoc : List (String × JVal) :=
  [("income_statement", JVal.obj [("revenue", JVal.num 0)])]

/-- A single document with a non-zero income statement. -/
def someDataDoc : List (String × JVal) :=
  [("income_statement", JVal.obj [("revenue", JVal.num 100)])]

/-- Stage outcomes in which every stage succeeds with a truthy result. -/
def envAllOk : PipelineEnv :=
  { qoe := .ok (JVal.obj [("quality_score", JVal.num 80)]),
    working_capital := .ok (JVal.obj [("net_working_capital", JVal.num 1)]),
    ratios := .ok (JVal.obj [("overall_health_score", JVal.num 50)]),
    dcf := .ok (JVal.obj [("enterprise_value", JVal.num 1)]),
    red_flags := .ok (JVal.arr [JVal.str "flag"]),
    anomalies_available := true,
    anomalies := .ok (JVal.arr [JVal.str "anomaly"]),
    insights := .ok (JVal.str "insights") }

/-- Stage outcomes in which the QoE engine raises. -/
def envQoeRaises : PipelineEnv :=
  { envAllOk with qoe := .error "ValueError" }

/-- **C3 counterexample.** A deal whose merged financial data has an
all-zero (but non-empty) income statement does NOT halt the pipeline: the
guard is `not merged.get("income_statement")` (line 139), and a non-empty
dict is truthy regardless of its values, so all seven stages run and the
deal completes — refuting the claim that an all-zero income statement is
treated as fatal. -/
theorem all_zero_income_statement_does_not_halt :
    (run_analysis_pipeline_core (merge_financial_data [allZeroDoc]) envAllOk).deal_status
        = "completed" ∧
    ((run_analysis_pipeline_core (merge_financial_data [allZeroDoc]) envAllOk).records).length
        = 7 := by
  constructor <;> rfl

/-- **C3 amended.** The pipeline halts immediately with the Deal marked
failed and no AnalysisRecords exactly when the merged data has a falsy
`income_statement` entry — i.e. the key is absent or maps to an empty
map — not when it is merely all-zero. -/
theorem no_income_statement_halts_pipeline (merged : JVal) (env : PipelineEnv)
    (h : pipelineHasData merged = false) :
    run_analysis_pipeline_core merged env = { deal_status := "failed", records := [] } := by
  simp [run_analysis_pipeline_core, h]

/-- Witness for the amended C3 at a concrete input: merging no documents at
all yields `{}`, whose `income_statement` read is falsy, and the pipeline
run fails with no records. -/
theorem no_income_statement_halts_pipeline_witness :
    run_analysis_pipeline_core (merge_financial_data []) envAllOk =
      { deal_status := "failed", records := [] } :=
  no_income_statement_halts_pipeline (merge_financial_data []) envAllOk rfl

/-- **C1 counterexample.** When the QoE engine raises during STEP 6, no
`AnalysisRecord` is written at all (in particular none with status
"failed"), none of the subsequent stages (working capital, ratios, DCF,
red flags, anomalies, insights) produces a record, and the Deal itself is
marked failed — refuting the claim that a stage failure is recorded on
that stage and the pipeline continues. -/
theorem qoe_exception_aborts_pipeline :
    run_analysis_pipeline_core (merge_financial_data [someDataDoc]) envQoeRaises =
      { deal_status := "failed", records := [] } := by
  rfl

/-- **C1 amended.** The five calculation-engine calls of STEP 6 have no
per-stage exception handling: if any of them raises, the exception
propagates to the pipeline's outer handler, the Deal status is set to
"failed", no AnalysisRecord is written for the raising stage or any later
stage, and only the records of the stages that completed before the
failure remain. -/
theorem engine_exception_fails_deal_and_halts (merged : JVal) (env : PipelineEnv)
    (hdata : pipelineHasData merged = true) :
    (∀ e, env.qoe = .error e →
      run_analysis_pipeline_core merged env =
        { deal_status := "failed", records := [] }) ∧
    (∀ q e, env.qoe = .ok q → env.working_capital = .error e →
      run_analysis_pipeline_core merged env =
        { deal_status := "failed", records := save_analysis [] "qoe" q }) ∧
    (∀ q w e, env.qoe = .ok q → env.working_capital = .ok w → env.ratios = .error e →
      run_analysis_pipeline_core merged env =
        { deal_status := "failed",
          records := save_analysis (save_analysis [] "qoe" q) "working_capital" w }) ∧
    (∀ q w r e, env.qoe = .ok q → env.working_capital = .ok w → env.ratios = .ok r →
        env.dcf = .error e →
      run_analysis_pipeline_core merged env =
        { deal_status := "failed",
          records := save_analysis (save_analysis (save_analysis [] "qoe" q)
            "working_capital" w) "ratios" r }) ∧
    (∀ q w r d e, env.qoe = .ok q → env.working_capital = .ok w → env.ratios = .ok r →
        env.dcf = .ok d → env.red_flags = .error e →
      run_analysis_pipeline_core merged env =
        { deal_status := "failed",
          records := save_analysis (save_analysis (save_analysis (save_analysis []
            "qoe" q) "working_capital" w) "ratios" r) "dcf" d }) := by
  refine ⟨?_, ?_, ?_, ?_, ?_⟩
  · intro e hq
    simp [run_analysis_pipeline_core, hdata, hq]
  · intro q e hq hw
    simp [run_analysis_pipeline_core, hdata, hq, hw]
  · intro q w e hq hw hr
    simp [run_analysis_pipeline_core, hdata, hq, hw, hr]
  · intro q w r e hq hw hr hd
    simp [run_analysis_pipeline_core, hdata, hq, hw, hr, hd]
  · intro q w r d e hq hw hr hd hf
    simp [run_analysis_pipeline_core, hdata, hq, hw, hr, hd, hf]

/-- Witness for the amended C1 at a concrete input: with usable merged data
and a QoE engine that raises, the run fails with no records. -/
theorem engine_exception_fails_deal_and_halts_witness :
    run_analysis_pipeline_core (merge_financial_data [someDataDoc]) envQoeRaises =
      { deal_status := "failed", records := [] } :=
  (engine_exception_fails_deal_and_halts (merge_financial_data [someDataDoc])
    envQoeRaises rfl).1 "ValueError" rfl

theorem save_analysis_all_completed (recs : List SavedRecord) (ty : String) (res : JVal)
    (h : recs.all (fun r => r.status == "completed") = true) :
    (save_analysis recs ty res).all (fun r => r.status == "completed") = true := by
  unfold save_analysis
  by_cases hx : recs.any (fun x => x.analysis_type == ty) = true
  · rw [if_pos hx]
    rw [List.all_eq_true] at h ⊢
    intro y hy
    rw [List.mem_map] at hy
    obtain ⟨x, hxm, rfl⟩ := hy
    by_cases hc : (x.analysis_type == ty) = true
    · simp [hc]
    · simp only [Bool.not_eq_true] at hc
      simp [hc, h x hxm]
  · rw [if_neg hx]
    rw [List.all_eq_true] at h ⊢
    intro y hy
    rcases List.mem_append.mp hy with hmem | hmem
    · exact h y hmem
    · rcases List.mem_singleton.mp hmem with rfl
      rfl

/-- **C10.** Every `AnalysisRecord` the pipeline persists via
`save_analysis` has status "completed" — for every merged input and every
combination of stage outcomes, including null results for anomalies and
insights; no run ever produces a per-stage status of "failed", "pending" or
"running". -/
theorem pipeline_records_always_completed (merged : JVal) (env : PipelineEnv) :
    ((run_analysis_pipeline_core merged env).records).all
      (fun r => r.status == "completed") = true := by
  obtain ⟨eq, ew, er, ed, ef, av, ea, ei⟩ := env
  by_cases h : pipelineHasData merged
  · cases eq with
    | error e => simp [run_analysis_pipeline_core, h]
    | ok q =>
      cases ew with
      | error e =>
        simp only [run_analysis_pipeline_core, h, Bool.not_true, Bool.false_eq_true,
          if_false]
        repeat' apply save_analysis_all_completed
        rfl
      | ok w =>
        cases er with
        | error e =>
          simp only [run_analysis_pipeline_core, h, Bool.not_true, Bool.false_eq_true,
            if_false]
          repeat' apply save_analysis_all_completed
          rfl
        | ok r =>
          cases ed with
          | error e =>
            simp only [run_analysis_pipeline_core, h, Bool.not_true, Bool.false_eq_true,
              if_false]
            repeat' apply save_analysis_all_completed
            rfl
          | ok d =>
            cases ef with
            | error e =>
              simp only [run_analysis_pipeline_core, h, Bool.not_true, Bool.false_eq_true,
                if_false]
              repeat' apply save_analysis_all_completed
              rfl
            | ok f =>
              cases av with
              | false =>
                cases ei <;>
                · simp only [run_analysis_pipeline_core, h, Bool.not_true,
                    Bool.false_eq_true, if_false]
                  repeat' apply save_analysis_all_completed
                  rfl
              | true =>
                cases ea with
                | error e =>
                  simp only [run_analysis_pipeline_core, h, Bool.not_true,
                    Bool.false_eq_true, if_false]
                  repeat' apply save_analysis_all_completed
                  rfl
                | ok an =>
                  cases ei <;>
                  · simp only [run_analysis_pipeline_core, h, Bool.not_true,
                      Bool.false_eq_true, if_false]
                    repeat' apply save_analysis_all_completed
                    rfl
  · simp [run_analysis_pipeline_core, h]

/-!
## Numeric helpers — `safe_div` (utils.py) and Python rounding
-/

/-- `safe_div(a, b)` (utils.py lines 4–11): 0.0 when the denominator is
falsy (zero), else exact division. -/
def safe_div (a b : ℚ) : ℚ :=
  if b = 0 then 0 else a / b

/-- Python `round(x, n)`: round half to even at `n` decimal digits. -/
def pyRound (q : ℚ) (n : ℕ) : ℚ :=
  let m : ℚ := q * (10 : ℚ) ^ n
  let f : ℤ := ⌊m⌋
  let frac : ℚ := m - f
  let r : ℤ :=
    if frac > 1/2 then f + 1
    else if frac < 1/2 then f
    else if f % 2 = 0 then f else f + 1
  (r : ℚ) / (10 : ℚ) ^ n

/-- Python `int(x)`: truncation toward zero. -/
def ratTrunc (q : ℚ) : ℤ :=
  if q < 0 then -⌊-q⌋ else ⌊q⌋

/-!
## QoE Engine — `analyze_qoe` (financial_analyzer.py lines 7–61)
-/

/-- An adjustment dict.  Reads in the source go through
`a.get("amount", 0)` and `adj.get("category", "")`, so a missing key and
the default value are indistinguishable for those two; the `impact` key is
kept as an `Option` because `analyze_qoe` writes it
(`adj["impact"] = ...`). -/
structure AdjDict where
  description : String := ""
  amount : ℚ := 0
  category : String := ""
  impact : Option String := none
deriving DecidableEq

/-- The canonical financial-statement data consumed by the calculation
engines.  The engines read the three sections only through
`sec.get(key, 0)` with numeric defaults, modelled by `dget`. -/
structure FinData where
  income_statement : List (String × ℚ) := []
  balance_sheet : List (String × ℚ) := []
  cash_flow : List (String × ℚ) := []
  adjustments : List AdjDict := []

/-- `sec.get(key, 0)`. -/
def dget (sec : List (String × ℚ)) (k : String) : ℚ :=
  match sec with
  | [] => 0
  | kv :: rest => if kv.1 == k then kv.2 else dget rest k

/-- `adj["impact"] = "add_back" if adj.get("amount", 0) > 0 else
"deduction"` (financial_analyzer.py line 26). -/
def tagImpact (a : AdjDict) : AdjDict :=
  { a with impact := some (if a.amount > 0 then "add_back" else "deduction") }

/-- The category deduction applied per adjustment in the scoring loop
(financial_analyzer.py lines 37–44). -/
def categoryDeduction (a : AdjDict) : ℤ :=
  if a.category == "non_recurring" then 10
  else if a.category == "related_party" then 8
  else if a.category == "owner_compensation" then 5
  else 0

/-- The result dict of `analyze_qoe`. -/
structure QoEResult where
  reported_ebitda : ℚ
  adjusted_ebitda : ℚ
  total_adjustments : ℚ
  adjustments : List AdjDict
  quality_score : ℤ
  earnings_sustainability : String
  ebitda_margin : ℚ
  adjusted_ebitda_margin : ℚ

/-- `analyze_qoe(financial_data)` (financial_analyzer.py lines 7–61). -/
def analyze_qoe (financial_data : FinData) : QoEResult :=
  let inc := financial_data.income_statement
  let adjustments := financial_data.adjustments
  let revenue := dget inc "revenue"
  let net_income := dget inc "net_income"
  let interest := dget inc "interest"
  let tax := dget inc "tax"
  let depreciation := dget inc "depreciation"
  let reported_ebitda := net_income + interest + tax + depreciation
  let total_adj := (adjustments.map (fun a => a.amount)).sum
  let adjusted_ebitda := reported_ebitda + total_adj
  let tagged := adjustments.map tagImpact
  let magnitude := safe_div |total_adj| (max |reported_ebitda| 1)
  let score0 : ℤ := 80
  let score1 :=
    if magnitude > 1/4 then score0 - 30
    else if magnitude > 1/10 then score0 - 15
    else if magnitude > 1/20 then score0 - 5
    else score0
  let score2 := adjustments.foldl
    (fun s a =>
      if a.category == "non_recurring" then s - 10
      else if a.category == "related_party" then s - 8
      else if a.category == "owner_compensation" then s - 5
      else s)
    score1
  let op_exp := dget inc "operating_expenses"
  let score3 := if revenue > 0 ∧ revenue < op_exp then score2 - 15 else score2
  let score := max 0 (min 100 score3)
  let sustainability :=
    if score ≥ 70 then "high" else if score ≥ 40 then "medium" else "low"
  { reported_ebitda := pyRound reported_ebitda 2,
    adjusted_ebitda := pyRound adjusted_ebitda 2,
    total_adjustments := pyRound total_adj 2,
    adjustments := tagged,
    quality_score := score,
    earnings_sustainability := sustainability,
    ebitda_margin := pyRound (safe_div reported_ebitda revenue * 100) 1,
    adjusted_ebitda_margin := pyRound (safe_div adjusted_ebitda revenue * 100) 1 }

/-!
## Claim C5 — the QoE quality-score formula
-/

/-- Spec-side reported EBITDA: net income + interest + tax + depreciation. -/
def qoeReportedEbitda (fd : FinData) : ℚ :=
  dget fd.income_statement "net_income" + dget fd.income_statement "interest" +
    dget fd.income_statement "tax" + dget fd.income_statement "depreciation"

/-- Spec-side total adjustments: signed sum of all adjustment amounts. -/
def qoeTotalAdjustments (fd : FinData) : ℚ :=
  (fd.adjustments.map (fun a => a.amount)).sum

/-- Spec-side magnitude-tier deduction: exactly one of −30 / −15 / −5 / 0,
decided on `|total_adjustments| / max(|reported_ebitda|, 1)`. -/
def qoeTierDeduction (fd : FinData) : ℤ :=
  let ratio := |qoeTotalAdjustments fd| / max |qoeReportedEbitda fd| 1
  if ratio > 1/4 then 30
  else if ratio > 1/10 then 15
  else if ratio > 1/20 then 5
  else 0

/-- Spec-side flat −15 penalty when revenue is positive yet below operating
expenses. -/
def qoeOpexPenalty (fd : FinData) : ℤ :=
  if dget fd.income_statement "revenue" > 0 ∧
      dget fd.income_statement "revenue" < dget fd.income_statement "operating_expenses"
  then 15 else 0

/-- The quality score as the claim states it: 80, minus one tier deduction,
minus the per-adjustment category deductions summed over every adjustment,
minus the opex penalty, clamped into [0, 100]. -/
def qoeSpecScore (fd : FinData) : ℤ :=
  max 0 (min 100
    (80 - qoeTierDeduction fd - (fd.adjustments.map categoryDeduction).sum -
      qoeOpexPenalty fd))

theorem safe_div_of_pos (a b : ℚ) (hb : 0 < b) : safe_div a b = a / b := by
  simp [safe_div, ne_of_gt hb]

theorem safe_div_max_abs_one (a b : ℚ) : safe_div a (max |b| 1) = a / max |b| 1 :=
  safe_div_of_pos a _ (lt_of_lt_of_le one_pos (le_max_right _ _))

theorem foldl_categoryDeduction (l : List AdjDict) (init : ℤ) :
    l.foldl
      (fun s a =>
        if a.category == "non_recurring" then s - 10
        else if a.category == "related_party" then s - 8
        else if a.category == "owner_compensation" then s - 5
        else s)
      init = init - (l.map categoryDeduction).sum := by
  induction l generalizing init with
  | nil => simp
  | cons a rest ih =>
    rw [List.foldl_cons, ih, List.map_cons, List.sum_cons]
    unfold categoryDeduction
    split_ifs <;> omega

/-- **C5.** For every input statement, the QoE quality score equals 80
minus exactly one magnitude-tier deduction, minus the per-adjustment
category deductions summed over every adjustment, minus a flat 15 when
revenue is positive and below operating expenses, clamped into [0, 100];
in particular it always lies in [0, 100], for arbitrary adjustment
magnitudes. -/
theorem qoe_quality_score_formula (fd : FinData) :
    (analyze_qoe fd).quality_score = qoeSpecScore fd ∧
    0 ≤ (analyze_qoe fd).quality_score ∧
    (analyze_qoe fd).quality_score ≤ 100 := by
  refine ⟨?_, ?_, ?_⟩
  · show max 0 (min 100 _) = qoeSpecScore fd
    unfold qoeSpecScore qoeTierDeduction qoeOpexPenalty qoeTotalAdjustments
      qoeReportedEbitda
    simp only [analyze_qoe, foldl_categoryDeduction, safe_div_max_abs_one]
    split_ifs <;> omega
  · show 0 ≤ max 0 (min 100 _)
    exact le_max_left 0 _
  · show max 0 (min 100 _) ≤ 100
    exact max_le (by norm_num) (min_le_left _ _)

/-!
## Claim C9 — `analyze_qoe` mutates its argument
-/

/-- The caller's adjustment dicts after `analyze_qoe(financial_data)`
returns (financial_analyzer.py lines 9 and 24–26): `list(...)` at line 9
copies only the outer list — the dict objects inside it stay shared with
the caller — and the loop at lines 25–26 assigns `adj["impact"]` through
those shared references, so the write lands in the caller's dicts. -/
def analyze_qoe_caller_adjustments_after (financial_data : FinData) : List AdjDict :=
  financial_data.adjustments.map tagImpact

/-- A statement carrying one adjustment dict without an `impact` key. -/
def qoeMutationInput : FinData :=
  { income_statement := [("revenue", 10)],
    adjustments := [{ description := "one-time consulting fee", amount := 5,
                      category := "other" }] }

/-- **C9.** `analyze_qoe` is not pure in its argument: after the call, the
caller's adjustment dict has gained an `impact` key — the argument is
changed, although line 9 of financial_analyzer.py claims the copy avoids
mutation.  The result's `adjustments` list is exactly the list of mutated
shared dicts. -/
theorem analyze_qoe_mutates_its_argument :
    analyze_qoe_caller_adjustments_after qoeMutationInput ≠
      qoeMutationInput.adjustments ∧
    analyze_qoe_caller_adjustments_after qoeMutationInput =
      [{ description := "one-time consulting fee", amount := 5, category := "other",
         impact := some "add_back" }] ∧
    (analyze_qoe qoeMutationInput).adjustments =
      analyze_qoe_caller_adjustments_after qoeMutationInput := by
  refine ⟨?_, ?_, rfl⟩
  · norm_num [analyze_qoe_caller_adjustments_after, tagImpact, qoeMutationInput]
    exact Option.some_ne_none _
  · norm_num [analyze_qoe_caller_adjustments_after, tagImpact, qoeMutationInput]

/-!
## Ratio Engine — `calculate_ratios` (financial_analyzer.py lines 111–180)
-/

/-- The result of `calculate_ratios`: the 18 (rounded) ratios of the five
groups, flattened, plus the composite health score and rating. -/
structure RatiosResult where
  current_ratio : ℚ
  quick_ratio : ℚ
  cash_ratio : ℚ
  gross_margin : ℚ
  ebitda_margin : ℚ
  operating_margin : ℚ
  net_margin : ℚ
  roe : ℚ
  roa : ℚ
  debt_to_equity : ℚ
  debt_to_assets : ℚ
  interest_coverage : ℚ
  debt_to_ebitda : ℚ
  asset_turnover : ℚ
  inventory_turnover : ℚ
  receivables_turnover : ℚ
  ocf_to_net_income : ℚ
  fcf_margin : ℚ
  overall_health_score : ℤ
  health_rating : String

/-- Liquidity sub-score (financial_analyzer.py line 169):
`min(100, max(0, current_ratio / 2.0 * 100))`. -/
def liqSubScore (current_ratio : ℚ) : ℚ :=
  min 100 (max 0 (current_ratio / 2 * 100))

/-- Profitability sub-score (line 170): `min(100, max(0, net_margin / 20.0
* 100))`. -/
def profSubScore (net_margin : ℚ) : ℚ :=
  min 100 (max 0 (net_margin / 20 * 100))

/-- Leverage sub-score (line 171): `max(0, min(100, (4.0 − debt_to_equity)
/ 3.0 * 100))`. -/
def levSubScore (debt_to_equity : ℚ) : ℚ :=
  max 0 (min 100 ((4 - debt_to_equity) / 3 * 100))

/-- Efficiency sub-score (line 172): `min(100, asset_turnover / 1.0 * 100)`
— capped above but, unlike the other four, NOT clamped below 0. -/
def effSubScore (asset_turnover : ℚ) : ℚ :=
  min 100 (asset_turnover / 1 * 100)

/-- Cash-flow sub-score (line 173): `min(100, max(0, ocf_to_net_income /
1.5 * 100))`. -/
def cfSubScore (ocf_to_net_income : ℚ) : ℚ :=
  min 100 (max 0 (ocf_to_net_income / (3/2) * 100))

/-- `calculate_ratios(financial_data)` (financial_analyzer.py lines
111–180). -/
def calculate_ratios (financial_data : FinData) : RatiosResult :=
  let inc := financial_data.income_statement
  let bs := financial_data.balance_sheet
  let cf := financial_data.cash_flow
  let revenue := dget inc "revenue"
  let cogs := dget inc "cogs"
  let gp0 := dget inc "gross_profit"
  let gross_profit := if gp0 ≠ 0 then gp0 else revenue - cogs
  let ebitda := dget inc "ebitda"
  let net_income := dget inc "net_income"
  let interest := dget inc "interest"
  let current_assets := dget bs "total_current_assets"
  let inventory := dget bs "inventory"
  let cash := dget bs "cash"
  let current_liab := dget bs "total_current_liabilities"
  let total_assets := dget bs "total_assets"
  let total_equity := dget bs "total_equity"
  let total_liab := dget bs "total_liabilities"
  let ar := dget bs "accounts_receivable"
  let total_debt := dget bs "long_term_debt" + dget bs "short_term_debt"
  let ocf := dget cf "operating_cf"
  let fcf := dget cf "fcf"
  let current_ratio := pyRound (safe_div current_assets current_liab) 2
  let net_margin := pyRound (safe_div net_income revenue * 100) 1
  let debt_to_equity := pyRound (safe_div total_liab total_equity) 2
  let asset_turnover := pyRound (safe_div revenue total_assets) 2
  let ocf_to_net_income := pyRound (safe_div ocf net_income) 2
  let liq := liqSubScore current_ratio
  let prof := profSubScore net_margin
  let lev := levSubScore debt_to_equity
  let eff := effSubScore asset_turnover
  let cf_s := cfSubScore ocf_to_net_income
  let health0 := ratTrunc (liq * (1/5) + prof * (1/4) + lev * (1/5) +
    eff * (3/20) + cf_s * (1/5))
  let health := max 0 (min 100 health0)
  { current_ratio := current_ratio,
    quick_ratio := pyRound (safe_div (current_assets - inventory) current_liab) 2,
    cash_ratio := pyRound (safe_div cash current_liab) 2,
    gross_margin := pyRound (safe_div gross_profit revenue * 100) 1,
    ebitda_margin := pyRound (safe_div ebitda revenue * 100) 1,
    operating_margin := pyRound (safe_div ebitda revenue * 100) 1,
    net_margin := net_margin,
    roe := pyRound (safe_div net_income total_equity * 100) 1,
    roa := pyRound (safe_div net_income total_assets * 100) 1,
    debt_to_equity := debt_to_equity,
    debt_to_assets := pyRound (safe_div total_liab total_assets) 2,
    interest_coverage := pyRound (safe_div ebitda interest) 2,
    debt_to_ebitda := pyRound (safe_div total_debt ebitda) 2,
    asset_turnover := asset_turnover,
    inventory_turnover := pyRound (safe_div cogs inventory) 2,
    receivables_turnover := pyRound (safe_div revenue ar) 2,
    ocf_to_net_income := ocf_to_net_income,
    fcf_margin := pyRound (safe_div fcf revenue * 100) 1,
    overall_health_score := health,
    health_rating :=
      if health ≥ 80 then "Excellent"
      else if health ≥ 65 then "Good"
      else if health ≥ 45 then "Fair"
      else if health ≥ 25 then "Concerning"
      else "Critical" }

/-- A statement with negative revenue and positive assets: its asset
turnover is −1. -/
def negRevenueInput : FinData :=
  { income_statement := [("revenue", -100)],
    balance_sheet := [("total_assets", 100)] }

/-- **C6 counterexample.** The efficiency sub-score is NOT clamped into
[0, 100]: line 172 caps it above (`min(100, ...)`) but has no `max(0, ...)`
floor, so for a statement with asset turnover −1 it evaluates to −100, and
the negative sub-score leaks into the weighted composite (here dragging it
from 20 to 5) — refuting the claim that each of the five sub-scores is
clamped into [0, 100]. -/
theorem efficiency_subscore_not_clamped :
    (calculate_ratios negRevenueInput).asset_turnover = -1 ∧
    effSubScore ((calculate_ratios negRevenueInput).asset_turnover) = -100 ∧
    (calculate_ratios negRevenueInput).overall_health_score = 5 := by
  norm_num +decide [calculate_ratios, negRevenueInput, dget, safe_div, pyRound,
    ratTrunc, liqSubScore, profSubScore, levSubScore, effSubScore, cfSubScore]

/-- **C6 amended.** Four of the five sub-scores (liquidity, profitability,
leverage, cash flow) are clamped into [0, 100] for every input; the
efficiency sub-score is only capped above at 100 and may be negative; the
weighted composite, truncated to an integer, is nevertheless clamped into
[0, 100] at the end. -/
theorem ratio_subscores_and_health_bounds (q : ℚ) (fd : FinData) :
    (0 ≤ liqSubScore q ∧ liqSubScore q ≤ 100) ∧
    (0 ≤ profSubScore q ∧ profSubScore q ≤ 100) ∧
    (0 ≤ levSubScore q ∧ levSubScore q ≤ 100) ∧
    (0 ≤ cfSubScore q ∧ cfSubScore q ≤ 100) ∧
    effSubScore q ≤ 100 ∧
    0 ≤ (calculate_ratios fd).overall_health_score ∧
    (calculate_ratios fd).overall_health_score ≤ 100 := by
  refine ⟨⟨le_min (by norm_num) (le_max_left 0 _), min_le_left _ _⟩,
          ⟨le_min (by norm_num) (le_max_left 0 _), min_le_left _ _⟩,
          ⟨le_max_left 0 _, max_le (by norm_num) (min_le_left _ _)⟩,
          ⟨le_min (by norm_num) (le_max_left 0 _), min_le_left _ _⟩,
          min_le_left _ _, ?_, ?_⟩
  · show (0 : ℤ) ≤ max 0 (min 100 _)
    exact le_max_left 0 _
  · show max 0 (min 100 _) ≤ 100
    exact max_le (by norm_num) (min_le_left _ _)

/-!
## DCF Engine — `calculate_dcf` (financial_analyzer.py lines 186–247)
-/

/-- The recognized assumption options with their defaults (lines 187–196);
`{**defaults, **(assumptions or {})}` merges caller overrides per key, which
is exactly structure-literal field override. -/
structure DCFAssumptions where
  projection_years : ℕ := 5
  revenue_growth_rate : ℚ := 1/10
  growth_decline_per_year : ℚ := 1/100
  capex_pct_revenue : ℚ := 1/20
  tax_rate : ℚ := 1/4
  wacc : ℚ := 12/100
  terminal_growth_rate : ℚ := 3/100

/-- One entry of `projected_years` (lines 217–225). -/
structure YearRow where
  year : ℕ
  revenue : ℚ
  ebitda : ℚ
  fcf : ℚ
  discount_factor : ℚ
  pv_fcf : ℚ
  growth_rate : ℚ

/-- The projection loop (lines 207–225), carrying the unrounded compounding
revenue; the rows store the rounded copies, exactly as the dicts do.
The discount factor `1 / (1 + wacc) ** year` is modelled with total
division (the `wacc = -1` pole, where Python would raise, is not reachable
in any claim). -/
def dcfProject (a : DCFAssumptions) (margin : ℚ) : ℕ → ℕ → ℚ → List YearRow
  | 0, _, _ => []
  | n + 1, year, prevRevenue =>
    let growth := max (2/100)
      (a.revenue_growth_rate - ((year : ℚ) - 1) * a.growth_decline_per_year)
    let revenue := prevRevenue * (1 + growth)
    let year_ebitda := revenue * margin
    let tax := year_ebitda * a.tax_rate
    let capex := revenue * a.capex_pct_revenue
    let fcf := year_ebitda - tax - capex
    let df := 1 / (1 + a.wacc) ^ year
    { year := year, revenue := pyRound revenue 0, ebitda := pyRound year_ebitda 0,
      fcf := pyRound fcf 0, discount_factor := pyRound df 4,
      pv_fcf := pyRound (fcf * df) 0, growth_rate := pyRound (growth * 100) 1 } ::
      dcfProject a margin n (year + 1) revenue

/-- The result dict of `calculate_dcf`. -/
structure DCFResult where
  assumptions : DCFAssumptions
  projected_years : List YearRow
  terminal_value : ℚ
  pv_terminal_value : ℚ
  sum_pv_fcf : ℚ
  enterprise_value : ℚ
  equity_value : ℚ
  ev_to_revenue : ℚ
  ev_to_ebitda : ℚ
  current_ebitda_margin : ℚ

/-- `calculate_dcf(financial_data, assumptions)` (lines 186–247).  The two
raising sites are explicit: `projected_years[-1]` raises `IndexError` on an
empty projection, and the terminal-value expression at line 228 divides by
`wacc - terminal_growth_rate` with no guard, raising `ZeroDivisionError`
when that difference is zero.  (Python's default `assumptions=None` means
the all-defaults structure.) -/
def calculate_dcf (financial_data : FinData) (a : DCFAssumptions) :
    Except String DCFResult :=
  let inc := financial_data.income_statement
  let bs := financial_data.balance_sheet
  let base_revenue := dget inc "revenue"
  let ebitda := dget inc "ebitda"
  let current_ebitda_margin := safe_div ebitda base_revenue
  let cash_val := dget bs "cash"
  let total_debt := dget bs "long_term_debt" + dget bs "short_term_debt"
  let projected_years := dcfProject a current_ebitda_margin a.projection_years 1 base_revenue
  match projected_years.getLast? with
  | none => .error "IndexError"
  | some lastRow =>
    if a.wacc - a.terminal_growth_rate = 0 then .error "ZeroDivisionError"
    else
      let terminal_value :=
        lastRow.fcf * (1 + a.terminal_growth_rate) / (a.wacc - a.terminal_growth_rate)
      let terminal_discount := 1 / (1 + a.wacc) ^ a.projection_years
      let pv_terminal := terminal_value * terminal_discount
      let sum_pv_fcf := (projected_years.map (fun y => y.pv_fcf)).sum
      let enterprise_value := sum_pv_fcf + pv_terminal
      let equity_value := enterprise_value + cash_val - total_debt
      .ok { assumptions := a, projected_years := projected_years,
            terminal_value := pyRound terminal_value 0,
            pv_terminal_value := pyRound pv_terminal 0,
            sum_pv_fcf := pyRound sum_pv_fcf 0,
            enterprise_value := pyRound enterprise_value 0,
            equity_value := pyRound equity_value 0,
            ev_to_revenue := pyRound (safe_div enterprise_value base_revenue) 2,
            ev_to_ebitda := pyRound (safe_div enterprise_value ebitda) 2,
            current_ebitda_margin := pyRound (current_ebitda_margin * 100) 1 }

/-- A plain profitable statement for the DCF claims. -/
def dcfInput : FinData :=
  { income_statement := [("revenue", 1000), ("ebitda", 300)],
    balance_sheet := [("cash", 50), ("long_term_debt", 100), ("short_term_debt", 20)] }

/-- **C2 (code bug).** The terminal-value computation is NOT guarded: with
`terminal_growth_rate = 0.12` equal to the default `wacc`, `calculate_dcf`
divides by zero and raises (Python raises `ZeroDivisionError` at line 228);
with `wacc = 0.10 < terminal_growth_rate = 0.12` it silently produces a
garbage negative terminal value (−14392) although the final projected FCF
is positive (257). -/
theorem dcf_terminal_division_unguarded :
    calculate_dcf dcfInput { terminal_growth_rate := 12/100 } =
      .error "ZeroDivisionError" ∧
    (calculate_dcf dcfInput { wacc := 1/10, terminal_growth_rate := 12/100 }).map
        (fun r => (r.terminal_value, (r.projected_years.map (fun y => y.fcf)).getLast?))
      = .ok (-14392, some 257) := by
  constructor
  · norm_num +decide [calculate_dcf, dcfInput, dcfProject, dget, safe_div, pyRound]
  · norm_num +decide [calculate_dcf, dcfInput, dcfProject, dget, safe_div, pyRound,
      Except.map]

/-!
## Anomaly Engine — `AnomalyDetector.detect` (ml_engine.py lines 140–322)

Layer 1 (statistical benchmark ranges, lines 166–190) and layer 3
(rule-based domain checks, lines 262–322) are deterministic arithmetic and
are embedded exactly.  Layer 2 (the Isolation-Forest models, lines
192–260) calls external ML libraries, wraps itself in `except: pass`, and
contributes a possibly-empty list of anomalies appended between the two
deterministic layers; it is abstracted as the `mlLayer` parameter.  The
human-readable `description` / `expected_range` strings (pure presentation
built with float formatting) are elided from the record.
-/

/-- One anomaly dict (presentation-only text fields elided). -/
structure Anomaly where
  anomaly : String
  severity : String
  category : String
  metric : String
  value : ℚ

/-- The `features` dict (ml_engine.py lines 155–165), read back through
`features.get(metric, 0)`. -/
def anomalyFeature (r : RatiosResult) : String → ℚ
  | "gross_margin" => r.gross_margin
  | "net_margin" => r.net_margin
  | "ebitda_margin" => r.ebitda_margin
  | "current_ratio" => r.current_ratio
  | "debt_to_equity" => r.debt_to_equity
  | "asset_turnover" => r.asset_turnover
  | "ocf_to_net_income" => r.ocf_to_net_income
  | "interest_coverage" => r.interest_coverage
  | _ => 0

/-- `BENCHMARKS` (ml_engine.py lines 129–138), in dict insertion order. -/
def BENCHMARKS : List (String × ℚ × ℚ) :=
  [("gross_margin", 20, 80), ("net_margin", -5, 25), ("current_ratio", 8/10, 3),
   ("debt_to_equity", 2/10, 35/10), ("asset_turnover", 3/10, 25/10),
   ("ocf_to_net_income", 5/10, 25/10), ("interest_coverage", 15/10, 30),
   ("ebitda_margin", 5, 40)]

/-- `metric.replace("_", " ").title()`, specialized to the metric names that
occur (identity elsewhere). -/
def metricTitle : String → String
  | "gross_margin" => "Gross Margin"
  | "net_margin" => "Net Margin"
  | "ebitda_margin" => "Ebitda Margin"
  | "current_ratio" => "Current Ratio"
  | "debt_to_equity" => "Debt To Equity"
  | "asset_turnover" => "Asset Turnover"
  | "ocf_to_net_income" => "Ocf To Net Income"
  | "interest_coverage" => "Interest Coverage"
  | s => s

/-- Layer 1: the Z-score / range analysis (ml_engine.py lines 166–190). -/
def statLayer (ratios : RatiosResult) : List Anomaly :=
  BENCHMARKS.filterMap (fun b =>
    let metric := b.1
    let low := b.2.1
    let high := b.2.2
    let value := anomalyFeature ratios metric
    let midpoint := (low + high) / 2
    let spread := (high - low) / 2
    if spread ≤ 0 then none
    else
      let z := |value - midpoint| / spread
      if value < low ∨ value > high then
        some { anomaly := "Unusual " ++ metricTitle metric,
               severity := if z > 3 then "critical" else if z > 2 then "high" else "medium",
               category := "statistical", metric := metric, value := pyRound value 2 }
      else none)

/-- Layer 3: the rule-based domain checks (ml_engine.py lines 262–322), in
source order: suspicious gross margin, EBITDA vs revenue, balance-sheet
imbalance, low cash conversion. -/
def rulesLayer (financial_data : FinData) (ratios : RatiosResult) : List Anomaly :=
  let inc := financial_data.income_statement
  let bs := financial_data.balance_sheet
  let cf := financial_data.cash_flow
  let gm := ratios.gross_margin
  (if gm > 95 then
    [{ anomaly := "Suspiciously High Gross Margin", severity := "high",
       category := "rule_based", metric := "gross_margin", value := gm }]
  else []) ++
  (if dget inc "ebitda" > dget inc "revenue" ∧ dget inc "revenue" > 0 then
    [{ anomaly := "EBITDA Exceeds Revenue", severity := "critical",
       category := "rule_based", metric := "ebitda_vs_revenue",
       value := dget inc "ebitda" }]
  else []) ++
  (let total_assets := dget bs "total_assets"
   let total_le := dget bs "total_liabilities" + dget bs "total_equity"
   if total_assets > 0 ∧ |total_assets - total_le| > total_assets * (1/100) then
    [{ anomaly := "Balance Sheet Imbalance", severity := "high",
       category := "rule_based", metric := "bs_balance",
       value := pyRound (total_assets - total_le) 0 }]
  else []) ++
  (let ocf := dget cf "operating_cf"
   let ni := dget inc "net_income"
   if ni > 0 ∧ ocf > 0 ∧ safe_div ocf ni < 3/10 then
    [{ anomaly := "Low Cash Conversion", severity := "high",
       category := "rule_based", metric := "ocf_to_net_income",
       value := pyRound (safe_div ocf ni) 2 }]
  else [])

/-- `AnomalyDetector.detect(financial_data, ratios)` (ml_engine.py lines
140–322): the statistical layer, then whatever the best-effort ML layer
contributed, then the rule-based layer. -/
def AnomalyDetector_detect (mlLayer : List Anomaly) (financial_data : FinData)
    (ratios : RatiosResult) : List Anomaly :=
  statLayer ratios ++ mlLayer ++ rulesLayer financial_data ratios

/-- A statement with negative revenue whose EBITDA exceeds its revenue. -/
def negEbitdaInput : FinData :=
  { income_statement := [("revenue", -10), ("ebitda", 5)] }

/-- **C8 counterexample.** For a statement with `ebitda = 5 > revenue =
-10`, the detector emits NO EBITDA-exceeds-revenue anomaly: the check at
ml_engine.py line 276 additionally requires `revenue > 0`, so it is not
evaluated "regardless of the revenue's sign" as claimed. -/
theorem ebitda_check_skipped_for_nonpositive_revenue :
    dget negEbitdaInput.income_statement "ebitda" >
      dget negEbitdaInput.income_statement "revenue" ∧
    (AnomalyDetector_detect [] negEbitdaInput
        (calculate_ratios negEbitdaInput)).all
      (fun a => !(a.metric == "ebitda_vs_revenue")) = true := by
  constructor
  · norm_num +decide [dget, negEbitdaInput]
  · norm_num +decide [AnomalyDetector_detect, statLayer, rulesLayer, BENCHMARKS,
      anomalyFeature, metricTitle, calculate_ratios, negEbitdaInput, dget, safe_div,
      pyRound, ratTrunc, liqSubScore, profSubScore, levSubScore, effSubScore,
      cfSubScore, List.filterMap_cons]

/-- **C8 amended.** The hard EBITDA-exceeds-revenue check fires — with
severity critical, in the rule-based layer, regardless of the statistical
layer's findings and of whatever the optional ML layer contributed —
exactly when `ebitda > revenue` AND `revenue > 0`; for zero or negative
revenue the check is skipped. -/
theorem ebitda_exceeds_revenue_flagged (mlLayer : List Anomaly) (fd : FinData)
    (r : RatiosResult)
    (hgt : dget fd.income_statement "ebitda" > dget fd.income_statement "revenue")
    (hpos : dget fd.income_statement "revenue" > 0) :
    ∃ a ∈ AnomalyDetector_detect mlLayer fd r,
      a.anomaly = "EBITDA Exceeds Revenue" ∧ a.severity = "critical" := by
  refine ⟨{ anomaly := "EBITDA Exceeds Revenue", severity := "critical",
            category := "rule_based", metric := "ebitda_vs_revenue",
            value := dget fd.income_statement "ebitda" }, ?_, rfl, rfl⟩
  unfold AnomalyDetector_detect rulesLayer
  simp [List.mem_append, hgt, hpos]

/-- A statement with positive revenue whose EBITDA exceeds its revenue. -/
def posEbitdaInput : FinData :=
  { income_statement := [("revenue", 3), ("ebitda", 5)] }

/-- Witness for the amended C8 at a concrete input. -/
theorem ebitda_exceeds_revenue_flagged_witness :
    ∃ a ∈ AnomalyDetector_detect [] posEbitdaInput
        (calculate_ratios posEbitdaInput),
      a.anomaly = "EBITDA Exceeds Revenue" ∧ a.severity = "critical" :=
  ebitda_exceeds_revenue_flagged [] posEbitdaInput (calculate_ratios posEbitdaInput)
    (by norm_num +decide [dget, posEbitdaInput])
    (by norm_num +decide [dget, posEbitdaInput])
